import Mathlib

/-!
Verification development for the taxi booking system
(src/taxi_booking_system.py).

The file shallowly embeds the Booking / Location / NotificationManager /
Observer cluster of the source. Python objects become Lean structures;
each Python method becomes a Lean function from the receiver (and, for
the notification manager, the class-level shared state) to the updated
value. Python exceptions (TypeError from a call-arity mismatch,
ValueError from list.remove on a missing element) are made explicit in
the return types. All definitions are computable so that concrete
counterexamples and witnesses evaluate by decide or rfl.
-/

namespace TaxiBooking

/-! ## Booking statuses

The specification names five lifecycle states. The source stores the
status in the plain attribute book_status and never inspects it, so the
embedding fixes the value space to these five states without changing
any behaviour of the setters. -/

inductive BookStatus where
  | requested
  | assigned
  | enRoute
  | completed
  | cancelled
deriving DecidableEq, Repr

/-! ## Booking

Embeds class Booking: the constructor fields and the setter
set_book_status, which is `self.book_status = new_book_status` with no
status check and no failure path. -/

structure Booking where
  booking_id : Nat
  book_status : BookStatus
  customer_id : Nat
  driver_id : Option Nat
  location_id : Nat
  travel_time : Nat
deriving DecidableEq, Repr

/-- Booking.set_book_status: unconditionally assigns the new status.
The method body is the single statement
`self.book_status = new_book_status`. -/
def Booking.set_book_status (b : Booking) (s : BookStatus) : Booking :=
  { b with book_status := s }

/-! ## Location

Embeds class Location: origin, destination and current coordinates are
plain attributes with one-line setters; no setter consults any booking
status and none can fail. Coordinates are integer pairs. -/

structure Location where
  location_id : Nat
  booking_id : Nat
  origin_latlng : Int × Int
  destination_latlng : Int × Int
  current_latlng : Int × Int
deriving DecidableEq, Repr

/-- Location.set_origin_latlng: `self.origin_latlng = new_origin_latlng`. -/
def Location.set_origin_latlng (l : Location) (p : Int × Int) : Location :=
  { l with origin_latlng := p }

/-- Location.set_destination_latlng:
`self.destination_latlng = new_destination_latlng`. -/
def Location.set_destination_latlng (l : Location) (p : Int × Int) : Location :=
  { l with destination_latlng := p }

/-- Location.set_current_latlng:
`self.current_latlng = new_current_latlng`. -/
def Location.set_current_latlng (l : Location) (p : Int × Int) : Location :=
  { l with current_latlng := p }

/-! ## Concrete sample values used by counterexamples and witnesses -/

/-- A booking that has reached the terminal state Completed. -/
def sampleCompleted : Booking :=
  { booking_id := 1, book_status := .completed, customer_id := 10
    driver_id := some 20, location_id := 5, travel_time := 30 }

/-- A booking still in the initial state Requested. -/
def sampleRequested : Booking :=
  { booking_id := 2, book_status := .requested, customer_id := 11
    driver_id := none, location_id := 6, travel_time := 25 }

/-- The location record of sampleCompleted. -/
def sampleLoc : Location :=
  { location_id := 5, booking_id := 1, origin_latlng := (0, 0)
    destination_latlng := (5, 5), current_latlng := (0, 0) }

/-- The location record of sampleRequested. -/
def sampleLoc2 : Location :=
  { location_id := 6, booking_id := 2, origin_latlng := (0, 0)
    destination_latlng := (5, 5), current_latlng := (0, 0) }

/-! ## Claim C1: terminal-state immutability -/

/-- Claim C1, as stated, is false at a concrete input: for a booking in
the terminal state Completed, set_book_status does not leave the status
unchanged — the mutation succeeds and the status becomes Requested. -/
theorem c1_counterexample :
    sampleCompleted.book_status = BookStatus.completed ∧
    (sampleCompleted.set_book_status BookStatus.requested).book_status ≠
      BookStatus.completed := by
  decide

/-- Claim C1 (amended): Booking.set_book_status enforces no state
machine. For a booking in a terminal state (Completed or Cancelled), a
further set_book_status call succeeds: the status is replaced by the
requested value and, when that value is itself non-terminal, the
booking has transitioned out of the terminal states; the other fields
are unchanged. -/
theorem c1_terminal_not_immutable (b : Booking) (s : BookStatus)
    (_hterm : b.book_status = BookStatus.completed ∨
      b.book_status = BookStatus.cancelled)
    (hs : s ≠ BookStatus.completed ∧ s ≠ BookStatus.cancelled) :
    (b.set_book_status s).book_status = s ∧
    (b.set_book_status s).book_status ≠ BookStatus.completed ∧
    (b.set_book_status s).book_status ≠ BookStatus.cancelled ∧
    (b.set_book_status s).booking_id = b.booking_id ∧
    (b.set_book_status s).customer_id = b.customer_id ∧
    (b.set_book_status s).driver_id = b.driver_id ∧
    (b.set_book_status s).location_id = b.location_id ∧
    (b.set_book_status s).travel_time = b.travel_time := by
  refine ⟨rfl, ?_, ?_, rfl, rfl, rfl, rfl, rfl⟩
  · simpa [Booking.set_book_status] using hs.1
  · simpa [Booking.set_book_status] using hs.2

/-- Witness for c1_terminal_not_immutable at the concrete completed
booking, mutated to Requested. -/
theorem c1_terminal_not_immutable_witness :
    ((sampleCompleted.book_status = BookStatus.completed ∨
      sampleCompleted.book_status = BookStatus.cancelled) ∧
     (BookStatus.requested ≠ BookStatus.completed ∧
      BookStatus.requested ≠ BookStatus.cancelled)) ∧
    ((sampleCompleted.set_book_status BookStatus.requested).book_status =
      BookStatus.requested ∧
     (sampleCompleted.set_book_status BookStatus.requested).book_status ≠
      BookStatus.completed ∧
     (sampleCompleted.set_book_status BookStatus.requested).book_status ≠
      BookStatus.cancelled ∧
     (sampleCompleted.set_book_status BookStatus.requested).booking_id =
      sampleCompleted.booking_id ∧
     (sampleCompleted.set_book_status BookStatus.requested).customer_id =
      sampleCompleted.customer_id ∧
     (sampleCompleted.set_book_status BookStatus.requested).driver_id =
      sampleCompleted.driver_id ∧
     (sampleCompleted.set_book_status BookStatus.requested).location_id =
      sampleCompleted.location_id ∧
     (sampleCompleted.set_book_status BookStatus.requested).travel_time =
      sampleCompleted.travel_time) :=
  ⟨⟨Or.inl rfl, by decide⟩,
    c1_terminal_not_immutable sampleCompleted BookStatus.requested
      (Or.inl rfl) (by decide)⟩

/-! ## Claim C2: status-gated current-coordinate updates -/

/-- Claim C2, as stated, is false at a concrete input: the booking is in
state Requested, yet set_current_latlng on its location record does not
leave the current coordinate unchanged — the update is applied. -/
theorem c2_counterexample :
    sampleRequested.book_status = BookStatus.requested ∧
    sampleLoc2.booking_id = sampleRequested.booking_id ∧
    (sampleLoc2.set_current_latlng (1, 1)).current_latlng = ((1, 1) : Int × Int) ∧
    sampleLoc2.current_latlng ≠ ((1, 1) : Int × Int) := by
  decide

/-- Claim C2 (amended): Location.set_current_latlng consults no booking
status and has no failure path. Even when the associated booking is in
Requested, Completed or Cancelled, the call succeeds: the current
coordinate is replaced by the given value and the origin and
destination coordinates are unchanged. -/
theorem c2_update_unconditional (l : Location) (b : Booking) (p : Int × Int)
    (_hlink : b.booking_id = l.booking_id)
    (_hst : b.book_status = BookStatus.requested ∨
      b.book_status = BookStatus.completed ∨
      b.book_status = BookStatus.cancelled) :
    (l.set_current_latlng p).current_latlng = p ∧
    (l.set_current_latlng p).origin_latlng = l.origin_latlng ∧
    (l.set_current_latlng p).destination_latlng = l.destination_latlng ∧
    (l.set_current_latlng p).booking_id = l.booking_id ∧
    (l.set_current_latlng p).location_id = l.location_id :=
  ⟨rfl, rfl, rfl, rfl, rfl⟩

/-- Witness for c2_update_unconditional at the requested booking and its
location record. -/
theorem c2_update_unconditional_witness :
    (sampleRequested.booking_id = sampleLoc2.booking_id ∧
     (sampleRequested.book_status = BookStatus.requested ∨
      sampleRequested.book_status = BookStatus.completed ∨
      sampleRequested.book_status = BookStatus.cancelled)) ∧
    ((sampleLoc2.set_current_latlng (1, 1)).current_latlng = ((1, 1) : Int × Int) ∧
     (sampleLoc2.set_current_latlng (1, 1)).origin_latlng = sampleLoc2.origin_latlng ∧
     (sampleLoc2.set_current_latlng (1, 1)).destination_latlng =
      sampleLoc2.destination_latlng ∧
     (sampleLoc2.set_current_latlng (1, 1)).booking_id = sampleLoc2.booking_id ∧
     (sampleLoc2.set_current_latlng (1, 1)).location_id = sampleLoc2.location_id) :=
  ⟨⟨rfl, Or.inl rfl⟩,
    c2_update_unconditional sampleLoc2 sampleRequested (1, 1) rfl (Or.inl rfl)⟩

/-! ## Claim C6: immutability of origin and destination -/

/-- Claim C6, as stated, is false at a concrete input: set_origin_latlng,
available after creation, changes the origin coordinate. -/
theorem c6_counterexample :
    (sampleLoc.set_origin_latlng (9, 9)).origin_latlng = ((9, 9) : Int × Int) ∧
    sampleLoc.origin_latlng ≠ ((9, 9) : Int × Int) := by
  decide

/-- Claim C6 (amended): origin and destination are not immutable after
creation. The setters set_origin_latlng and set_destination_latlng
replace the respective coordinate at any time: whenever the new value
differs from the stored one, the stored coordinate changes. -/
theorem c6_setters_mutate (l : Location) (p q : Int × Int)
    (hp : p ≠ l.origin_latlng) (hq : q ≠ l.destination_latlng) :
    (l.set_origin_latlng p).origin_latlng = p ∧
    (l.set_origin_latlng p).origin_latlng ≠ l.origin_latlng ∧
    (l.set_destination_latlng q).destination_latlng = q ∧
    (l.set_destination_latlng q).destination_latlng ≠ l.destination_latlng := by
  exact ⟨rfl, by simpa [Location.set_origin_latlng] using hp,
    rfl, by simpa [Location.set_destination_latlng] using hq⟩

/-- Witness for c6_setters_mutate at the concrete location record. -/
theorem c6_setters_mutate_witness :
    (((9, 9) : Int × Int) ≠ sampleLoc.origin_latlng ∧
     ((7, 7) : Int × Int) ≠ sampleLoc.destination_latlng) ∧
    ((sampleLoc.set_origin_latlng (9, 9)).origin_latlng = ((9, 9) : Int × Int) ∧
     (sampleLoc.set_origin_latlng (9, 9)).origin_latlng ≠ sampleLoc.origin_latlng ∧
     (sampleLoc.set_destination_latlng (7, 7)).destination_latlng = ((7, 7) : Int × Int) ∧
     (sampleLoc.set_destination_latlng (7, 7)).destination_latlng ≠
      sampleLoc.destination_latlng) :=
  ⟨⟨by decide, by decide⟩,
    c6_setters_mutate sampleLoc (9, 9) (7, 7) (by decide) (by decide)⟩

/-! ## Observer cluster

The source defines an abstract NotificationManager and a
ConcreteNotificationManager with two class-level attributes:

  _state: int = None
  _observers: List[Observer] = []

The class defines no constructor and no method ever assigns
self._observers, so every attribute lookup self._observers resolves to
the one list object created when the class statement ran; attach and
detach mutate that list in place. The embedding therefore keeps the
observer list in a single NotifClass value (the class-level state),
separate from the per-instance values. _state, by contrast, is
assigned through self in update_information, which creates an instance
attribute; the embedding stores the resolved value of self._state in
the instance (none models the class default None).

The three concrete observer classes each define
update(self, notification_manager), a method of one required positional
argument beyond self, whereas notify invokes observer.update() with no
argument: in Python that call raises TypeError before the method body
runs. The embedding makes the call arity explicit. -/

inductive ObsKind where
  | customer
  | driver
  | operator
deriving DecidableEq, Repr

/-- One attached observer object: an identity plus its concrete class. -/
structure ObserverObj where
  id : Nat
  kind : ObsKind
deriving DecidableEq, Repr

/-- Python exceptions that the embedded methods can raise. -/
inductive PyError where
  | typeError
  | valueError
deriving DecidableEq, Repr

/-- The class-level state of ConcreteNotificationManager: the single
list object bound to the class attribute _observers. -/
structure NotifClass where
  observers : List ObserverObj
deriving DecidableEq, Repr

/-- One ConcreteNotificationManager instance. It holds no observer list
of its own (the class never creates one); state is the resolved value
of self._state, none standing for the class default None. -/
structure MgrInstance where
  id : Nat
  state : Option Int
deriving DecidableEq, Repr

/-- ConcreteNotificationManager.attach:
`self._observers.append(observer)`. The lookup self._observers resolves
to the class attribute, so the append lands in the shared class-level
list whichever instance the call goes through. -/
def attach (cs : NotifClass) (_self : MgrInstance) (o : ObserverObj) :
    NotifClass :=
  { observers := cs.observers ++ [o] }

/-- Reading self._observers on any instance: the name is absent from
every instance dictionary, so the lookup yields the class-level list. -/
def read_observers (cs : NotifClass) (_self : MgrInstance) :
    List ObserverObj :=
  cs.observers

/-- list.remove semantics: remove the first occurrence, none when the
element is absent (Python raises ValueError in that case). -/
def removeFirst : List ObserverObj → ObserverObj → Option (List ObserverObj)
  | [], _ => none
  | x :: xs, o =>
    if x = o then some xs else (removeFirst xs o).map (fun ys => x :: ys)

/-- ConcreteNotificationManager.detach:
`self._observers.remove(observer)` — removes the first occurrence of
the observer from the shared list, raising ValueError when it is not
present. -/
def detach (cs : NotifClass) (_self : MgrInstance) (o : ObserverObj) :
    Except PyError NotifClass :=
  match removeFirst cs.observers o with
  | some l => .ok { observers := l }
  | none => .error .valueError

/-- Required positional arguments (beyond self) of the update method of
each concrete observer class: every one of CustomerObserver,
DriverObserver and OperatorObserver declares
update(self, notification_manager). -/
def updateParamCount (_k : ObsKind) : Nat := 1

/-- Number of arguments notify supplies: the loop body is
`observer.update()`. -/
def notifyArgCount : Nat := 0

/-- The body of the concrete update methods, run when the call binds:
it reads the passed manager state and reacts (prints) when the class
condition holds. CustomerObserver reacts when _state < 3;
DriverObserver and OperatorObserver react when _state == 0 or
_state >= 2. When _state is still None, the comparison with an int
raises TypeError. The returned Bool records whether the observer
reacted. -/
def runUpdateBody (k : ObsKind) (s : Option Int) : Except PyError Bool :=
  match s with
  | none => .error .typeError
  | some v =>
    match k with
    | .customer => .ok (decide (v < 3))
    | .driver => .ok (v == 0 || decide (2 ≤ v))
    | .operator => .ok (v == 0 || decide (2 ≤ v))

/-- Invoking observer.update with nargs supplied arguments against a
manager whose state is s: Python checks the arity when binding the
call, raising TypeError before the body runs when it does not match. -/
def callUpdate (k : ObsKind) (nargs : Nat) (s : Option Int) :
    Except PyError Bool :=
  if nargs = updateParamCount k then runUpdateBody k s else .error .typeError

/-- The notify loop `for observer in self._observers: observer.update()`
over a given observer list. The first component collects the ids of
observers whose update call completed; the second is the exception, if
any, that escaped the loop. A raised exception aborts the loop at once,
so later observers are never reached. -/
def notifyLoop : List ObserverObj → Option Int → List Nat × Option PyError
  | [], _ => ([], none)
  | o :: rest, s =>
    match callUpdate o.kind notifyArgCount s with
    | .error e => ([], some e)
    | .ok _ =>
      let r := notifyLoop rest s
      (o.id :: r.1, r.2)

/-- ConcreteNotificationManager.notify: iterates the shared class-level
observer list, invoking update() with no argument on each observer. -/
def notify (cs : NotifClass) (self : MgrInstance) :
    List Nat × Option PyError :=
  notifyLoop cs.observers self.state

/-- ConcreteNotificationManager.update_information: assigns a freshly
drawn value r = randrange(0, 10) to self._state (creating an instance
attribute) and then calls self.notify(). The draw is passed in as a
parameter. -/
def update_information (cs : NotifClass) (self : MgrInstance) (r : Int) :
    MgrInstance × (List Nat × Option PyError) :=
  let self' : MgrInstance := { self with state := some r }
  (self', notify cs self')

/-- CustomerObserver.update invoked, as the class intends, with the
notification manager as argument. -/
def CustomerObserver.update (nm : MgrInstance) : Except PyError Bool :=
  runUpdateBody .customer nm.state

/-- DriverObserver.update invoked, as the class intends, with the
notification manager as argument. -/
def DriverObserver.update (nm : MgrInstance) : Except PyError Bool :=
  runUpdateBody .driver nm.state

/-- OperatorObserver.update invoked, as the class intends, with the
notification manager as argument. -/
def OperatorObserver.update (nm : MgrInstance) : Except PyError Bool :=
  runUpdateBody .operator nm.state

/-! ## Concrete notification-side sample values -/

/-- An empty shared subscriber list. -/
def cls0 : NotifClass := { observers := [] }

/-- A customer observer. -/
def obsA : ObserverObj := { id := 1, kind := .customer }

/-- A driver observer. -/
def obsB : ObserverObj := { id := 2, kind := .driver }

/-- Shared subscriber list holding only obsA. -/
def cls1 : NotifClass := { observers := [obsA] }

/-- Shared subscriber list holding obsA then obsB. -/
def cls2 : NotifClass := { observers := [obsA, obsB] }

/-- A fresh manager instance: _state still the class default None. -/
def mgr0 : MgrInstance := { id := 0, state := none }

/-- A manager instance whose _state was set to 1. -/
def mgr1 : MgrInstance := { id := 0, state := some 1 }

/-- A manager instance whose _state was set to 5. -/
def mgr5 : MgrInstance := { id := 0, state := some 5 }

/-! ## Shared helper lemmas -/

/-- On any nonempty observer list the notify loop stops at the first
observer: update() supplies zero arguments while the method requires
one, so the very first call raises TypeError, no call completes, and
the exception escapes the loop. -/
theorem notifyLoop_cons (o : ObserverObj) (rest : List ObserverObj)
    (s : Option Int) :
    notifyLoop (o :: rest) s = ([], some PyError.typeError) := rfl

/-- The notify loop result does not depend on the manager state: every
iteration raises before the method body could read it. -/
theorem notifyLoop_state_independent (l : List ObserverObj)
    (s1 s2 : Option Int) :
    notifyLoop l s1 = notifyLoop l s2 := by
  cases l with
  | nil => rfl
  | cons x xs => rw [notifyLoop_cons, notifyLoop_cons]

/-- removeFirst yields none exactly when Python list.remove raises
ValueError: when the element is absent from the list. -/
theorem removeFirst_eq_none (l : List ObserverObj) (o : ObserverObj)
    (h : o ∉ l) : removeFirst l o = none := by
  induction l with
  | nil => rfl
  | cons x xs ih =>
    rw [List.mem_cons, not_or] at h
    have hx : ¬ (x = o) := fun hxo => h.1 hxo.symm
    simp [removeFirst, hx, ih h.2]

/-! ## Claim C3: idempotence of subscribe (attach) -/

/-- Claim C3, as stated, is false at a concrete input: attaching the
same observer twice does not equal attaching it once — the list then
holds the observer with multiplicity two. -/
theorem c3_counterexample :
    attach (attach cls0 mgr0 obsA) mgr0 obsA ≠ attach cls0 mgr0 obsA ∧
    (attach (attach cls0 mgr0 obsA) mgr0 obsA).observers.count obsA = 2 ∧
    (attach cls0 mgr0 obsA).observers.count obsA = 1 := by
  decide

/-- Claim C3 (amended): attach is not idempotent. It unconditionally
appends, so attaching the same observer twice leaves the subscriber
list with two more occurrences of that observer than before, and the
result of the second attach differs from the result of the first. -/
theorem c3_attach_duplicates (cs : NotifClass) (m m' : MgrInstance)
    (o : ObserverObj) :
    (attach (attach cs m o) m' o).observers = cs.observers ++ [o, o] ∧
    (attach (attach cs m o) m' o).observers.count o =
      cs.observers.count o + 2 ∧
    attach (attach cs m o) m' o ≠ attach cs m o := by
  refine ⟨by simp [attach], ?_, ?_⟩
  · simp [attach, List.count_append]
  · intro hcontra
    have hlen := congrArg (fun c => c.observers.length) hcontra
    simp [attach] at hlen

/-! ## Claim C4: delivery to every subscriber of the booking -/

/-- Claim C4, as stated, is false at a concrete input: obsA is a
current subscriber, yet a notify call delivers no completed update call
to it — the call list is empty and the call raises TypeError. -/
theorem c4_counterexample :
    obsA ∈ read_observers cls1 mgr0 ∧
    (notify cls1 mgr0).1 = [] ∧
    (notify cls1 mgr0).2 = some PyError.typeError := by
  decide

/-- Claim C4 (amended): notify carries no event and no booking id; it
iterates the single shared observer list, and every update() call it
makes raises TypeError for the missing notification_manager argument.
Hence no currently subscribed observer receives a completed update
call, and notify does not return normally. -/
theorem c4_no_subscriber_receives (cs : NotifClass) (m : MgrInstance)
    (o : ObserverObj) (h : o ∈ read_observers cs m) :
    o.id ∉ (notify cs m).1 ∧ (notify cs m).2 = some PyError.typeError := by
  have hne : cs.observers ≠ [] := by
    intro hnil
    rw [read_observers, hnil] at h
    simp at h
  obtain ⟨x, xs, hx⟩ := List.exists_cons_of_ne_nil hne
  unfold notify
  rw [hx, notifyLoop_cons]
  exact ⟨by simp, rfl⟩

/-- Witness for c4_no_subscriber_receives at the subscribed customer
observer. -/
theorem c4_no_subscriber_receives_witness :
    obsA ∈ read_observers cls1 mgr0 ∧
    (obsA.id ∉ (notify cls1 mgr0).1 ∧
     (notify cls1 mgr0).2 = some PyError.typeError) :=
  ⟨by decide, c4_no_subscriber_receives cls1 mgr0 obsA (by decide)⟩

/-! ## Claim C5: containment of subscriber failures -/

/-- Claim C5, as stated, is false at a concrete input: with the two
subscribers obsA and obsB attached, the failure of the first update
call makes the whole notify call fail and obsB receives nothing. -/
theorem c5_counterexample :
    read_observers cls2 mgr0 = [obsA, obsB] ∧
    (notify cls2 mgr0).2 = some PyError.typeError ∧
    obsB.id ∉ (notify cls2 mgr0).1 := by
  decide

/-- Claim C5 (amended): a failure inside one subscriber update call is
not contained. Whatever observers follow the first one, the exception
raised on the first call propagates out of notify and delivery to every
later subscriber is aborted. -/
theorem c5_failure_aborts (cs : NotifClass) (m : MgrInstance)
    (o : ObserverObj) (rest : List ObserverObj)
    (h : cs.observers = o :: rest) :
    (notify cs m).2 = some PyError.typeError ∧
    ∀ x ∈ rest, x.id ∉ (notify cs m).1 := by
  unfold notify
  rw [h, notifyLoop_cons]
  exact ⟨rfl, fun x _ => by simp⟩

/-- Witness for c5_failure_aborts with obsA first and obsB after it. -/
theorem c5_failure_aborts_witness :
    cls2.observers = obsA :: [obsB] ∧
    ((notify cls2 mgr0).2 = some PyError.typeError ∧
     ∀ x ∈ [obsB], x.id ∉ (notify cls2 mgr0).1) :=
  ⟨rfl, c5_failure_aborts cls2 mgr0 obsA [obsB] rfl⟩

/-! ## Claim C7: unsubscribe of an absent observer -/

/-- Claim C7, as stated, is false at a concrete input: obsB is not
subscribed, yet detach does not return without error — it raises
ValueError. -/
theorem c7_counterexample :
    obsB ∉ read_observers cls1 mgr0 ∧
    detach cls1 mgr0 obsB = Except.error PyError.valueError :=
  ⟨by decide, rfl⟩

/-- Claim C7 (amended): detach of an observer that is not currently
subscribed is not a no-op: list.remove on the missing element raises
ValueError. -/
theorem c7_detach_absent_raises (cs : NotifClass) (m : MgrInstance)
    (o : ObserverObj) (h : o ∉ read_observers cs m) :
    detach cs m o = Except.error PyError.valueError := by
  unfold detach
  rw [removeFirst_eq_none cs.observers o h]

/-- Witness for c7_detach_absent_raises at the driver observer, absent
from the singleton subscriber list. -/
theorem c7_detach_absent_raises_witness :
    obsB ∉ read_observers cls1 mgr0 ∧
    detach cls1 mgr0 obsB = Except.error PyError.valueError :=
  ⟨by decide, c7_detach_absent_raises cls1 mgr0 obsB (by decide)⟩

/-! ## Claim C8: unconditional reaction of driver and operator roles -/

/-- Claim C8, as stated, is false at a concrete input: with the manager
state set to 1, the update bodies of DriverObserver and
OperatorObserver run and do not react. -/
theorem c8_counterexample :
    mgr1.state = some 1 ∧
    DriverObserver.update mgr1 = Except.ok false ∧
    OperatorObserver.update mgr1 = Except.ok false :=
  ⟨rfl, rfl, rfl⟩

/-- Claim C8 (amended): DriverObserver and OperatorObserver do not
react unconditionally. When the manager state holds a value v, each
reacts exactly when v = 0 or v is at least 2 — so at v = 1 a delivered
event produces no reaction. -/
theorem c8_driver_operator_react_iff (m : MgrInstance) (v : Int)
    (h : m.state = some v) :
    (DriverObserver.update m = Except.ok true ↔ (v = 0 ∨ 2 ≤ v)) ∧
    (OperatorObserver.update m = Except.ok true ↔ (v = 0 ∨ 2 ≤ v)) := by
  simp only [DriverObserver.update, OperatorObserver.update,
    runUpdateBody, h]
  constructor <;>
    simp [Bool.or_eq_true, decide_eq_true_iff, beq_iff_eq]

/-- Witness for c8_driver_operator_react_iff at state value 5. -/
theorem c8_driver_operator_react_iff_witness :
    mgr5.state = some 5 ∧
    ((DriverObserver.update mgr5 = Except.ok true ↔
      ((5 : Int) = 0 ∨ 2 ≤ (5 : Int))) ∧
     (OperatorObserver.update mgr5 = Except.ok true ↔
      ((5 : Int) = 0 ∨ 2 ≤ (5 : Int)))) :=
  ⟨rfl, c8_driver_operator_react_iff mgr5 5 rfl⟩

/-! ## Claim C9: notify raises TypeError with concrete observers -/

/-- Claim C9: whenever at least one concrete observer is attached,
notify — and hence the notify call made by update_information after it
draws a new state — raises TypeError at the first update() call,
before any reaction occurs: the list of completed update calls is
empty. -/
theorem c9_notify_raises_type_error (cs : NotifClass) (m : MgrInstance)
    (r : Int) (h : cs.observers ≠ []) :
    notify cs m = ([], some PyError.typeError) ∧
    (update_information cs m r).2 = ([], some PyError.typeError) := by
  obtain ⟨x, xs, hx⟩ := List.exists_cons_of_ne_nil h
  constructor
  · unfold notify
    rw [hx, notifyLoop_cons]
  · show notifyLoop cs.observers (some r) = ([], some PyError.typeError)
    rw [hx, notifyLoop_cons]

/-- Witness for c9_notify_raises_type_error with one attached customer
observer and draw 4. -/
theorem c9_notify_raises_type_error_witness :
    cls1.observers ≠ [] ∧
    (notify cls1 mgr0 = ([], some PyError.typeError) ∧
     (update_information cls1 mgr0 4).2 = ([], some PyError.typeError)) :=
  ⟨by decide, c9_notify_raises_type_error cls1 mgr0 4 (by decide)⟩

/-! ## Claim C10: the observer list is class-level shared state -/

/-- Claim C10: _observers is one class-level list shared by all
ConcreteNotificationManager instances. After m1 attaches an observer,
that observer is in the list read through any other instance m2, the
two instances read the same list, and notify through either instance
iterates that same list with the same outcome. -/
theorem c10_shared_class_level_observers (cs : NotifClass)
    (m1 m2 : MgrInstance) (o : ObserverObj) :
    o ∈ read_observers (attach cs m1 o) m2 ∧
    read_observers (attach cs m1 o) m2 = read_observers (attach cs m1 o) m1 ∧
    notify (attach cs m1 o) m2 = notify (attach cs m1 o) m1 := by
  refine ⟨?_, rfl, ?_⟩
  · simp [read_observers, attach]
  · exact notifyLoop_state_independent (attach cs m1 o).observers
      m2.state m1.state

end TaxiBooking
